import Mathlib

/-!
Verification of the shipping-cost resolution engine and the plan-based
entitlement layer of the plataforma-lojas storefront builder.

The development shallowly embeds the relevant code:

* `storage.ts` — `calculateShipping`, `getSubscriptionByUserId`, `getAllPlans`;
* `subscriptionMiddleware.ts` — `checkProductLimit`, `checkOrderLimit`,
  `requireActiveSubscription`, `getPlanUsage`;
* the route layer — `POST /api/shipping/calculate`, `GET /api/plans`,
  `GET /api/subscription`.

Modelling conventions:

* `decimal(10,2)` database columns (prices, shipping costs, thresholds) hold
  well-formed decimal strings; the code reads them through `parseFloat`.  We
  represent such a column directly by the rational number `parseFloat` yields,
  with `Option` for nullable columns (`none` covers SQL NULL, for which every
  JavaScript truthiness test the code performs is false).
* JavaScript string comparison (`<=` on strings) is lexicographic over UTF-16
  code units; on the digit strings involved here this coincides with the
  character-by-character comparison `jsStrLtAux` below.
* The database is passed explicitly as lists of rows; `async` storage calls
  become pure functions of those lists.  Row fields no claim depends on
  (Stripe ids, billing-period bounds, audit timestamps of other tables) are
  omitted from the row structures.
* Clock reads (`new Date()`, `Date.now()`) become explicit parameters.
-/

/-- Strips every non-digit character, the embedding of the JavaScript
idiom `s.replace(/\D/g, '')` used on zip codes and zone bounds. -/
def stripNonDigits (s : String) : String :=
  ⟨s.data.filter Char.isDigit⟩

/-- Strict lexicographic order on character lists, by code point: the order
JavaScript uses when comparing the (digit-only) strings of this code base. -/
def jsStrLtAux : List Char → List Char → Bool
  | [], [] => false
  | [], _ :: _ => true
  | _ :: _, [] => false
  | a :: as, b :: bs =>
    if a < b then true else if b < a then false else jsStrLtAux as bs

/-- Embedding of the JavaScript string comparison `a <= b`. -/
def jsStrLe (a b : String) : Bool := !(jsStrLtAux b.data a.data)

/-- Embedding of the JavaScript idiom `x || dflt` on a nullable integer:
`null` and `0` are falsy, every other integer is returned as is.  This is the
operator `calculateShipping` applies to `zone.estimatedDays`. -/
def jsOrInt : Option Int → Int → Int
  | none, dflt => dflt
  | some n, dflt => if n = 0 then dflt else n

/-- Row of the `shipping_configs` table (one per store); both decimal columns
are nullable and are stored already parsed, per the conventions above. -/
structure ShippingConfig where
  freeShippingThreshold : Option Rat
  defaultShippingCost : Option Rat
deriving DecidableEq, Repr

/-- Row of the `shipping_zones` table, restricted to the fields
`calculateShipping` reads.  The list handed to `calculateShipping` stands for
the output of `getShippingZones` (the store's active zones, in storage order). -/
structure ShippingZone where
  name : String
  zipCodeStart : String
  zipCodeEnd : String
  shippingCost : Rat
  estimatedDays : Option Int
deriving DecidableEq, Repr

/-- Result record of `calculateShipping` (storage.ts): `{ cost, estimatedDays }`. -/
structure ShippingQuote where
  cost : Rat
  estimatedDays : Int
deriving DecidableEq, Repr

/-- Guard of the free-shipping branch of `calculateShipping`:
`config?.freeShippingThreshold && parseFloat(threshold) > 0` together with the
inner `orderTotal >= parseFloat(threshold)`.  A NULL threshold is falsy; a
threshold parsing to zero fails the `> 0` test. -/
def thresholdApplies (config : Option ShippingConfig) (orderTotal : Rat) : Bool :=
  match config with
  | none => false
  | some c =>
    match c.freeShippingThreshold with
    | none => false
    | some t => decide (0 < t) && decide (t ≤ orderTotal)

/-- Zone-matching test of `calculateShipping`: digit-stripped bounds compared
to the cleaned zip by JavaScript string order,
`cleanZip >= zipStart && cleanZip <= zipEnd`. -/
def zoneMatches (cleanZip : String) (zone : ShippingZone) : Bool :=
  jsStrLe (stripNonDigits zone.zipCodeStart) cleanZip &&
  jsStrLe cleanZip (stripNonDigits zone.zipCodeEnd)

/-- Fallback cost of `calculateShipping`:
`config?.defaultShippingCost ? parseFloat(config.defaultShippingCost) : 0`. -/
def defaultCostOf : Option ShippingConfig → Rat
  | none => 0
  | some c => c.defaultShippingCost.getD 0

/-- Embedding of `calculateShipping(storeId, zipCode, orderTotal)`
(storage.ts lines 521-549).  The two storage reads are passed in: `config` is
`getShippingConfig(storeId)` and `zones` is `getShippingZones(storeId)`. -/
def calculateShipping (config : Option ShippingConfig) (zones : List ShippingZone)
    (zipCode : String) (orderTotal : Rat) : ShippingQuote :=
  let cleanZip := stripNonDigits zipCode
  if thresholdApplies config orderTotal then
    { cost := 0, estimatedDays := 7 }
  else
    match zones.find? (zoneMatches cleanZip) with
    | some zone =>
        { cost := zone.shippingCost, estimatedDays := jsOrInt zone.estimatedDays 7 }
    | none => { cost := defaultCostOf config, estimatedDays := 7 }

/-- Body of the `POST /api/shipping/calculate` response: field names restated
for the frontend, with `isFree: shipping.cost === 0`.  The route stringifies
`shippingCost`; we keep the numeric value it stringifies. -/
structure ApiShippingResponse where
  shippingCost : Rat
  estimatedDays : Int
  isFree : Bool
deriving DecidableEq, Repr

/-- Translation a `calculateShipping` result undergoes in
`POST /api/shipping/calculate`. -/
def apiShippingResponse (q : ShippingQuote) : ApiShippingResponse :=
  { shippingCost := q.cost, estimatedDays := q.estimatedDays,
    isFree := decide (q.cost = 0) }

example : stripNonDigits "01310-100" = "01310100" := by decide
example : jsStrLe "01000000" "01310100" = true := by decide
example : jsStrLe "06000000" "01310100" = false := by decide

example :
    calculateShipping (some { freeShippingThreshold := some 200,
                              defaultShippingCost := some 15 })
      [ { name := "A", zipCodeStart := "01000000", zipCodeEnd := "05999999",
          shippingCost := 10, estimatedDays := some 3 } ]
      "01310100" 250 = { cost := 0, estimatedDays := 7 } := by decide

example :
    calculateShipping none
      [ { name := "A", zipCodeStart := "01000000", zipCodeEnd := "05999999",
          shippingCost := 10, estimatedDays := some 3 },
        { name := "B", zipCodeStart := "06000000", zipCodeEnd := "09999999",
          shippingCost := 20, estimatedDays := some 5 } ]
      "01310100" 50 = { cost := 10, estimatedDays := 3 } := by decide

example :
    calculateShipping (some { freeShippingThreshold := none,
                              defaultShippingCost := some 15 })
      [ { name := "A", zipCodeStart := "01000000", zipCodeEnd := "05999999",
          shippingCost := 10, estimatedDays := some 3 } ]
      "99999999" 50 = { cost := 15, estimatedDays := 7 } := by decide

/-- Example zone from the specification walkthrough: range 01000000-05999999,
cost 10, 3 estimated days. -/
def zoneA : ShippingZone :=
  { name := "Zona A", zipCodeStart := "01000000", zipCodeEnd := "05999999",
    shippingCost := 10, estimatedDays := some 3 }

/-- Example zone from the specification walkthrough: range 06000000-09999999,
cost 20, 5 estimated days. -/
def zoneB : ShippingZone :=
  { name := "Zona B", zipCodeStart := "06000000", zipCodeEnd := "09999999",
    shippingCost := 20, estimatedDays := some 5 }

/-- Zone whose `estimated_days` column holds the (falsy) integer 0; it
separates the `||`-semantics of the code from a nullish-coalescing reading. -/
def zoneDayZero : ShippingZone :=
  { name := "Zona C", zipCodeStart := "00000000", zipCodeEnd := "99999999",
    shippingCost := 10, estimatedDays := some 0 }

/-- Helper: `find?` returns the head of the first matching suffix when every
element before it fails the predicate. -/
theorem find?_first_match {α : Type} (p : α → Bool) :
    ∀ pre : List α, (∀ x ∈ pre, p x = false) →
    ∀ (z : α) (post : List α), p z = true →
    (pre ++ z :: post).find? p = some z := by
  intro pre
  induction pre with
  | nil =>
      intro _ z post hz
      simpa using List.find?_cons_of_pos post hz
  | cons a l ih =>
      intro h z post hz
      have ha : p a = false := h a (by simp)
      have hrest : (l ++ z :: post).find? p = some z :=
        ih (fun x hx => h x (by simp [hx])) z post hz
      have hstep : ((a :: l) ++ z :: post) = a :: (l ++ z :: post) := rfl
      rw [hstep, List.find?_cons_of_neg _ (by simp [ha])]
      exact hrest

/-- C1: when a free-shipping threshold greater than zero is configured and the
order subtotal reaches it, the quote is cost 0, 7 estimated days, reported as
free by the route, and the zone list is never consulted (any zone list yields
the same quote). -/
theorem threshold_free_shipping_short_circuit
    (config : ShippingConfig) (t : Rat) (zones : List ShippingZone)
    (zipCode : String) (orderTotal : Rat)
    (ht : config.freeShippingThreshold = some t)
    (htpos : 0 < t) (hge : t ≤ orderTotal) :
    calculateShipping (some config) zones zipCode orderTotal =
      { cost := 0, estimatedDays := 7 } ∧
    apiShippingResponse (calculateShipping (some config) zones zipCode orderTotal) =
      { shippingCost := 0, estimatedDays := 7, isFree := true } ∧
    (∀ zones' : List ShippingZone,
      calculateShipping (some config) zones' zipCode orderTotal =
        calculateShipping (some config) zones zipCode orderTotal) := by
  have hta : thresholdApplies (some config) orderTotal = true := by
    simp [thresholdApplies, ht, htpos, hge]
  refine ⟨?_, ?_, ?_⟩ <;> simp [calculateShipping, hta, apiShippingResponse]

/-- Witness for C1 at threshold 200, subtotal 250, with both example zones
present: the quote is free despite the matching zone. -/
theorem threshold_free_shipping_short_circuit_witness :
    calculateShipping
      (some { freeShippingThreshold := some 200, defaultShippingCost := some 15 })
      [zoneA, zoneB] "01310100" 250 = { cost := 0, estimatedDays := 7 } :=
  (threshold_free_shipping_short_circuit
    { freeShippingThreshold := some 200, defaultShippingCost := some 15 }
    200 [zoneA, zoneB] "01310100" 250 rfl (by norm_num) (by norm_num)).1

/-- C2 counterexample: a matching zone whose `estimatedDays` is present but
equal to 0 yields 7 estimated days (JavaScript `||`), not the stored value 0
the claim asserts. -/
theorem zone_estimated_days_zero_yields_seven :
    calculateShipping none [zoneDayZero] "01310100" 50 ≠
      { cost := 10, estimatedDays := 0 } ∧
    calculateShipping none [zoneDayZero] "01310100" 50 =
      { cost := 10, estimatedDays := 7 } := by
  decide

/-- C2 (amended): when the threshold does not apply, the quote is determined by
the first zone in the supplied order whose digit-stripped bounds contain the
cleaned zip under lexicographic string comparison, and equals
cost = zone.shippingCost, estimatedDays = zone.estimatedDays when non-null and
non-zero (else 7), with isFree reported as cost == 0 by the route. -/
theorem zone_first_match_quote
    (config : Option ShippingConfig) (orderTotal : Rat) (zipCode : String)
    (pre post : List ShippingZone) (zone : ShippingZone)
    (hth : thresholdApplies config orderTotal = false)
    (hpre : ∀ z ∈ pre, zoneMatches (stripNonDigits zipCode) z = false)
    (hlo : jsStrLe (stripNonDigits zone.zipCodeStart) (stripNonDigits zipCode) = true)
    (hhi : jsStrLe (stripNonDigits zipCode) (stripNonDigits zone.zipCodeEnd) = true) :
    calculateShipping config (pre ++ zone :: post) zipCode orderTotal =
      { cost := zone.shippingCost, estimatedDays := jsOrInt zone.estimatedDays 7 } ∧
    apiShippingResponse (calculateShipping config (pre ++ zone :: post) zipCode orderTotal) =
      { shippingCost := zone.shippingCost,
        estimatedDays := jsOrInt zone.estimatedDays 7,
        isFree := decide (zone.shippingCost = 0) } := by
  have hz : zoneMatches (stripNonDigits zipCode) zone = true := by
    simp [zoneMatches, hlo, hhi]
  have hfind :
      (pre ++ zone :: post).find? (zoneMatches (stripNonDigits zipCode)) = some zone :=
    find?_first_match _ pre hpre zone post hz
  constructor <;> simp [calculateShipping, hth, hfind, apiShippingResponse]

/-- Witness for the amended C2 at the specification example: zones A and B in
that order and zip 01310100 give cost 10 and 3 days. -/
theorem zone_first_match_quote_witness :
    calculateShipping none [zoneA, zoneB] "01310100" 50 =
      { cost := 10, estimatedDays := 3 } :=
  (zone_first_match_quote none 50 "01310100" [] [zoneB] zoneA rfl
    (by simp) (by decide) (by decide)).1

/-- C3: when the threshold does not apply and no zone matches, the quote is the
store default cost (0 when unset) with 7 days, the route reports isFree exactly
when that cost is 0, and a store with no config and no zones degrades to the
zero-cost quote for every input; the resolver is a total function, so no
error is raised on this path. -/
theorem quote_no_match_default_fallback
    (config : Option ShippingConfig) (zones : List ShippingZone)
    (zipCode : String) (orderTotal : Rat)
    (hth : thresholdApplies config orderTotal = false)
    (hnone : zones.find? (zoneMatches (stripNonDigits zipCode)) = none) :
    calculateShipping config zones zipCode orderTotal =
      { cost := defaultCostOf config, estimatedDays := 7 } ∧
    apiShippingResponse (calculateShipping config zones zipCode orderTotal) =
      { shippingCost := defaultCostOf config, estimatedDays := 7,
        isFree := decide (defaultCostOf config = 0) } ∧
    (∀ (zip : String) (total : Rat),
        calculateShipping none [] zip total = { cost := 0, estimatedDays := 7 }) := by
  refine ⟨?_, ?_, ?_⟩
  · simp [calculateShipping, hth, hnone]
  · simp [calculateShipping, hth, hnone, apiShippingResponse]
  · intro zip total
    simp [calculateShipping, thresholdApplies, defaultCostOf]

/-- Witness for C3 at the specification example: zip 99999999 matches no zone
and the default cost 15 is returned, not free. -/
theorem quote_no_match_default_fallback_witness :
    calculateShipping
      (some { freeShippingThreshold := none, defaultShippingCost := some 15 })
      [zoneA, zoneB] "99999999" 50 = { cost := 15, estimatedDays := 7 } ∧
    apiShippingResponse
      (calculateShipping
        (some { freeShippingThreshold := none, defaultShippingCost := some 15 })
        [zoneA, zoneB] "99999999" 50) =
      { shippingCost := 15, estimatedDays := 7, isFree := false } := by
  have h := quote_no_match_default_fallback
    (some { freeShippingThreshold := none, defaultShippingCost := some 15 })
    [zoneA, zoneB] "99999999" 50 rfl (by decide)
  exact ⟨h.1, h.2.1⟩

/-- Row of the `plans` table (all columns the core reads).  `price` is a
`decimal(10,2)` column kept as the rational it parses to; `max_products` and
`max_orders` are nullable integers, NULL meaning unlimited. -/
structure Plan where
  id : String
  name : String
  slug : String
  price : Rat
  stripePriceId : Option String
  maxProducts : Option Int
  maxOrders : Option Int
  features : List String
  isActive : Bool
deriving DecidableEq, Repr

/-- Row of the `subscriptions` table, restricted to the columns the resolver
reads; `createdAt` is the creation timestamp in epoch milliseconds.  The
schema declares `plan_id NOT NULL REFERENCES plans(id)`, so in every state the
database accepts, the referenced plan row exists; the embedding nevertheless
allows arbitrary lists so that the defensive join-failure branch of the code
is also visible. -/
structure Subscription where
  id : String
  userId : String
  planId : String
  status : String
  createdAt : Int
deriving DecidableEq, Repr

/-- Step function modelling `ORDER BY created_at DESC LIMIT 1` as a fold: the
accumulator keeps the row with the greatest `createdAt` seen so far (on equal
timestamps the database order is unspecified; the fold keeps the earlier row). -/
def pickLatest : Option Subscription → Subscription → Option Subscription
  | none, s => some s
  | some a, s => if a.createdAt < s.createdAt then some s else some a

/-- Rows of the `subscriptions` table belonging to one user (the WHERE clause
of `getSubscriptionByUserId`). -/
def userSubscriptions (subs : List Subscription) (userId : String) : List Subscription :=
  subs.filter (fun s => s.userId == userId)

/-- Result row of the query inside `getSubscriptionByUserId` before the join
check: the user's most recently created subscription, if any. -/
def latestSubscription (subs : List Subscription) (userId : String) : Option Subscription :=
  (userSubscriptions subs userId).foldl pickLatest none

/-- Embedding of `getSubscriptionByUserId` (storage.ts lines 431-446): the
most recent subscription row left-joined with its plan; when either the row or
the joined plan is absent the function returns `undefined`. -/
def getSubscriptionByUserId (subs : List Subscription) (plans : List Plan)
    (userId : String) : Option (Subscription × Plan) :=
  match latestSubscription subs userId with
  | none => none
  | some s =>
      match plans.find? (fun p => p.id == s.planId) with
      | none => none
      | some p => some (s, p)

/-- Helper: `pickLatest` always yields a row at least as recent as its second
argument and as anything already in the accumulator. -/
theorem pickLatest_bounds (acc : Option Subscription) (s : Subscription) :
    ∃ c, pickLatest acc s = some c ∧ s.createdAt ≤ c.createdAt ∧
      ∀ x, acc = some x → x.createdAt ≤ c.createdAt := by
  cases acc with
  | none => exact ⟨s, rfl, le_refl _, by simp⟩
  | some b =>
      by_cases hlt : b.createdAt < s.createdAt
      · refine ⟨s, by simp [pickLatest, hlt], le_refl _, ?_⟩
        intro x hx
        cases hx
        exact le_of_lt hlt
      · refine ⟨b, by simp [pickLatest, hlt], not_lt.mp hlt, ?_⟩
        intro x hx
        cases hx
        exact le_refl _

/-- Helper: any row produced by folding `pickLatest` came from the accumulator
or from the list. -/
theorem foldl_pickLatest_mem :
    ∀ (l : List Subscription) (acc : Option Subscription) (m : Subscription),
      l.foldl pickLatest acc = some m → acc = some m ∨ m ∈ l := by
  intro l
  induction l with
  | nil => exact fun _ _ h => Or.inl h
  | cons a l ih =>
      intro acc m h
      have h' := ih (pickLatest acc a) m (by simpa using h)
      rcases h' with h1 | h2
      · cases acc with
        | none =>
            right
            have ha : a = m := by simpa [pickLatest] using h1
            simp [ha]
        | some b =>
            by_cases hlt : b.createdAt < a.createdAt
            · right
              have ha : a = m := by simpa [pickLatest, hlt] using h1
              simp [ha]
            · left
              simpa [pickLatest, hlt] using h1
      · right; simp [h2]

/-- Helper: the fold result is an upper bound (by `createdAt`) of the list and
of the accumulator. -/
theorem foldl_pickLatest_ub :
    ∀ (l : List Subscription) (acc : Option Subscription) (m : Subscription),
      l.foldl pickLatest acc = some m →
      (∀ t ∈ l, t.createdAt ≤ m.createdAt) ∧
      (∀ a, acc = some a → a.createdAt ≤ m.createdAt) := by
  intro l
  induction l with
  | nil =>
      intro acc m h
      refine ⟨by simp, ?_⟩
      intro a ha
      rw [ha] at h
      cases h
      exact le_refl _
  | cons a l ih =>
      intro acc m h
      obtain ⟨c, hc, hsc, hacc⟩ := pickLatest_bounds acc a
      have h' : l.foldl pickLatest (some c) = some m := by
        simpa [hc] using h
      have := ih (some c) m h'
      have hcm : c.createdAt ≤ m.createdAt := this.2 c rfl
      refine ⟨?_, ?_⟩
      · intro t ht
        rcases List.mem_cons.mp ht with rfl | htl
        · exact le_trans hsc hcm
        · exact this.1 t htl
      · intro x hx
        exact le_trans (hacc x hx) hcm

/-- Helper: folding `pickLatest` from a non-empty accumulator yields a row. -/
theorem foldl_pickLatest_isSome :
    ∀ (l : List Subscription) (a : Subscription),
      (l.foldl pickLatest (some a)).isSome = true := by
  intro l
  induction l with
  | nil => intro a; rfl
  | cons b l ih =>
      intro a
      obtain ⟨c, hc, _⟩ := pickLatest_bounds (some a) b
      simpa [hc] using ih c

/-- Helper: when one row strictly dominates every other row by `createdAt`,
the fold — and hence the `ORDER BY created_at DESC LIMIT 1` query it models —
returns exactly that row. -/
theorem foldl_pickLatest_strict_max
    (rows : List Subscription) (s : Subscription)
    (hmem : s ∈ rows)
    (hmax : ∀ t ∈ rows, t ≠ s → t.createdAt < s.createdAt) :
    rows.foldl pickLatest none = some s := by
  cases rows with
  | nil => cases hmem
  | cons r rest =>
      have h1 : (r :: rest).foldl pickLatest none = rest.foldl pickLatest (some r) := rfl
      obtain ⟨m, hm⟩ := Option.isSome_iff_exists.mp (foldl_pickLatest_isSome rest r)
      have hmmem : m ∈ r :: rest := by
        rcases foldl_pickLatest_mem rest (some r) m hm with h | h
        · simp [Option.some_inj.mp h]
        · simp [h]
      have hub := foldl_pickLatest_ub rest (some r) m hm
      have hsm : s.createdAt ≤ m.createdAt := by
        rcases List.mem_cons.mp hmem with rfl | hs
        · exact hub.2 s rfl
        · exact hub.1 s hs
      have hms : m = s := by
        by_contra hne
        have := hmax m hmmem hne
        omega
      rw [h1, hm, hms]

/-- Response of `GET /api/subscription`: either the synthesized free-plan
object `{status, plan, isFree}` built when `getSubscriptionByUserId` yields
nothing, or the stored subscription row verbatim together with its plan. -/
inductive SubscriptionResult where
  | synthesized (status : String) (plan : Option Plan) (isFree : Bool)
  | record (sub : Subscription) (plan : Plan)
deriving DecidableEq, Repr

/-- Embedding of the `GET /api/subscription` handler: look up the user's
current subscription; if none, answer `{status: "active", plan: <plan with
slug "gratis">, isFree: true}`; otherwise answer the row verbatim. -/
def getApiSubscription (subs : List Subscription) (plans : List Plan)
    (userId : String) : SubscriptionResult :=
  match getSubscriptionByUserId subs plans userId with
  | none =>
      .synthesized "active" (plans.find? (fun p => p.slug == "gratis")) true
  | some (s, p) => .record s p

/-- Outcome of `requireActiveSubscription`: `proceed` carries the
`req.subscription` object handed to the next middleware (`isFree` is only set
on the synthesized free-plan object; on a stored subscription the field is
absent, which we model as `false` since the code only ever tests it for
truthiness); `notActive` is the 403 renewal response. -/
inductive AuthResult where
  | proceed (status : String) (plan : Option Plan) (isFree : Bool)
  | notActive
deriving DecidableEq, Repr

/-- Embedding of the `requireActiveSubscription` middleware
(subscriptionMiddleware.ts lines 10-45), after authentication: no
subscription row (or a row whose plan join failed) puts the user on the
synthesized free plan; a non-active stored subscription is rejected;
an active one is attached to the request. -/
def requireActiveSubscription (subs : List Subscription) (plans : List Plan)
    (userId : String) : AuthResult :=
  match getSubscriptionByUserId subs plans userId with
  | none =>
      .proceed "active" (plans.find? (fun p => p.slug == "gratis")) true
  | some (s, p) =>
      if s.status ≠ "active" then .notActive
      else .proceed s.status (some p) false

/-- Plan object the limit middlewares read from `req.subscription?.plan` after
`requireActiveSubscription` let the request through. -/
def effectivePlan (subs : List Subscription) (plans : List Plan)
    (userId : String) : Option Plan :=
  match requireActiveSubscription subs plans userId with
  | .proceed _ plan _ => plan
  | .notActive => none

/-- Structured denial payload of the limit middlewares (the 403 JSON body). -/
structure LimitPayload where
  message : String
  limit : Int
  current : Nat
  upgradeRequired : Bool
  redirectTo : String
deriving DecidableEq, Repr

/-- Outcome of a limit middleware: store lookup failed (404), denial with the
structured payload (403, the guarded mutation never runs), or `next()` (the
gate lets the mutation proceed and has no side effect of its own). -/
inductive GateResult where
  | storeNotFound
  | denied (payload : LimitPayload)
  | allowed
deriving DecidableEq, Repr

/-- Embedding of the `checkProductLimit` middleware (subscriptionMiddleware.ts
lines 48-80).  `store` is `getStoreByUserId(userId)` (only its presence
matters), `plan` is `req.subscription?.plan`, and `currentProducts` is the
length of `getProductsByStoreId(store.id)`.  The limit comparison runs only
when `plan?.maxProducts` is neither null nor undefined. -/
def checkProductLimit (store : Option String) (plan : Option Plan)
    (currentProducts : Nat) : GateResult :=
  match store with
  | none => .storeNotFound
  | some _ =>
      match plan with
      | none => .allowed
      | some p =>
          match p.maxProducts with
          | none => .allowed
          | some limit =>
              if (currentProducts : Int) ≥ limit then
                .denied
                  { message := "Você atingiu o limite de " ++ toString limit ++
                      " produtos do plano " ++ p.name ++
                      ". Faça upgrade para adicionar mais produtos."
                    limit := limit
                    current := currentProducts
                    upgradeRequired := true
                    redirectTo := "/dashboard/subscription" }
              else .allowed

/-- Free-tier plan row as hardcoded in the `GET /api/plans` fallback table. -/
def planGratis : Plan :=
  { id := "gratis", name := "Grátis", slug := "gratis", price := 0,
    stripePriceId := none, maxProducts := some 5, maxOrders := some 10,
    features := ["Até 5 produtos", "Até 10 pedidos/mês", "Loja básica",
      "Suporte por email"],
    isActive := true }

/-- Basic plan row as hardcoded in the `GET /api/plans` fallback table. -/
def planBasico : Plan :=
  { id := "basico", name := "Básico", slug := "basico", price := 29.90,
    stripePriceId := none, maxProducts := some 50, maxOrders := some 100,
    features := ["Até 50 produtos", "Até 100 pedidos/mês",
      "Personalização de cores", "Cupons de desconto", "Suporte prioritário"],
    isActive := true }

/-- Professional plan row as hardcoded in the `GET /api/plans` fallback table. -/
def planProfissional : Plan :=
  { id := "profissional", name := "Profissional", slug := "profissional",
    price := 79.90, stripePriceId := none, maxProducts := some 200,
    maxOrders := none,
    features := ["Até 200 produtos", "Pedidos ilimitados",
      "Personalização completa", "Cupons ilimitados", "Análises avançadas",
      "Suporte VIP"],
    isActive := true }

/-- Enterprise plan row as hardcoded in the `GET /api/plans` fallback table. -/
def planEnterprise : Plan :=
  { id := "enterprise", name := "Enterprise", slug := "enterprise",
    price := 199.90, stripePriceId := none, maxProducts := none,
    maxOrders := none,
    features := ["Produtos ilimitados", "Pedidos ilimitados",
      "Todas as funcionalidades", "API personalizada",
      "Suporte dedicado 24/7"],
    isActive := true }

/-- C4: for a resolved plan with a non-null product limit, the gate denies
with the structured upgrade payload exactly when the current product count has
reached the limit, and allows (calling through with no side effect of its own)
when the count is below it. -/
theorem product_limit_gate
    (storeId : String) (p : Plan) (limit : Int) (current : Nat)
    (hL : p.maxProducts = some limit) :
    ((current : Int) ≥ limit →
      checkProductLimit (some storeId) (some p) current =
        .denied
          { message := "Você atingiu o limite de " ++ toString limit ++
              " produtos do plano " ++ p.name ++
              ". Faça upgrade para adicionar mais produtos."
            limit := limit
            current := current
            upgradeRequired := true
            redirectTo := "/dashboard/subscription" }) ∧
    ((current : Int) < limit →
      checkProductLimit (some storeId) (some p) current = .allowed) := by
  constructor
  · intro hge
    simp [checkProductLimit, hL, hge]
  · intro hlt
    simp [checkProductLimit, hL, not_le.mpr hlt]

/-- Witness for C4 on the free tier (limit 5): 5 existing products are denied
with the structured payload, 4 are allowed. -/
theorem product_limit_gate_witness :
    checkProductLimit (some "store1") (some planGratis) 5 =
      GateResult.denied
        { message := "Você atingiu o limite de " ++ toString (5 : Int) ++
            " produtos do plano " ++ planGratis.name ++
            ". Faça upgrade para adicionar mais produtos."
          limit := 5
          current := 5
          upgradeRequired := true
          redirectTo := "/dashboard/subscription" } ∧
    checkProductLimit (some "store1") (some planGratis) 4 = GateResult.allowed :=
  ⟨(product_limit_gate "store1" planGratis 5 5 rfl).1 (by norm_num),
   (product_limit_gate "store1" planGratis 5 4 rfl).2 (by norm_num)⟩

/-- C5: with no subscription row for the user, the resolver synthesizes the
active free-plan result; with rows present, it returns the most recently
created row verbatim — whatever its status — joined with its plan (which the
schema's NOT NULL foreign key guarantees to exist). -/
theorem subscription_resolver_current_record
    (subs : List Subscription) (plans : List Plan) (userId : String) :
    (userSubscriptions subs userId = [] →
      getApiSubscription subs plans userId =
        .synthesized "active" (plans.find? (fun p => p.slug == "gratis")) true) ∧
    (∀ s p, s ∈ userSubscriptions subs userId →
      (∀ t ∈ userSubscriptions subs userId, t ≠ s → t.createdAt < s.createdAt) →
      plans.find? (fun pl => pl.id == s.planId) = some p →
      getApiSubscription subs plans userId = .record s p) := by
  constructor
  · intro hempty
    simp [getApiSubscription, getSubscriptionByUserId, latestSubscription, hempty]
  · intro s p hmem hmax hp
    have hlat : latestSubscription subs userId = some s :=
      foldl_pickLatest_strict_max _ s hmem hmax
    simp [getApiSubscription, getSubscriptionByUserId, hlat, hp]

/-- Subscription row with a non-active status, more recent than `subOld`. -/
def subCanceled : Subscription :=
  { id := "s1", userId := "u1", planId := "gratis", status := "canceled",
    createdAt := 100 }

/-- Older subscription row of the same user, still marked active. -/
def subOld : Subscription :=
  { id := "s2", userId := "u1", planId := "gratis", status := "active",
    createdAt := 50 }

/-- Witness for C5: the newer canceled row is returned verbatim, not the older
active one — the resolver does not gate on status. -/
theorem subscription_resolver_current_record_witness :
    getApiSubscription [subCanceled, subOld] [planGratis] "u1" =
      SubscriptionResult.record subCanceled planGratis :=
  (subscription_resolver_current_record [subCanceled, subOld] [planGratis] "u1").2
    subCanceled planGratis (by decide) (by decide) (by decide)

/-- C9: when a request reaches the product gate with no resolvable plan (no
subscription row and no plan with slug gratis in storage, so the synthesized
free plan is undefined), the limit comparison is skipped and creation is
allowed for every product count. -/
theorem missing_free_plan_grants_unlimited
    (subs : List Subscription) (plans : List Plan) (userId storeId : String)
    (hnosub : getSubscriptionByUserId subs plans userId = none)
    (hnofree : plans.find? (fun p => p.slug == "gratis") = none) :
    requireActiveSubscription subs plans userId =
      AuthResult.proceed "active" none true ∧
    effectivePlan subs plans userId = none ∧
    ∀ count : Nat,
      checkProductLimit (some storeId) (effectivePlan subs plans userId) count =
        GateResult.allowed := by
  have h1 : requireActiveSubscription subs plans userId =
      AuthResult.proceed "active" none true := by
    simp [requireActiveSubscription, hnosub, hnofree]
  refine ⟨h1, ?_, ?_⟩
  · simp [effectivePlan, h1]
  · intro count
    simp [effectivePlan, h1, checkProductLimit]

/-- Witness for C9: an empty database (no subscriptions, no plans) lets a
store with 10000 products create another one. -/
theorem missing_free_plan_grants_unlimited_witness :
    checkProductLimit (some "store1") (effectivePlan [] [] "u1") 10000 =
      GateResult.allowed :=
  (missing_free_plan_grants_unlimited [] [] "u1" "store1" rfl rfl).2.2 10000

/-- C10: when the user's most recent subscription row references a plan the
join cannot find, `getSubscriptionByUserId` returns none, so both the
middleware and the subscription route treat the user exactly as one with no
subscription at all — synthesized active free plan — regardless of the stored
row's status. -/
theorem missing_plan_row_treated_as_no_subscription
    (subs : List Subscription) (plans : List Plan) (userId : String)
    (s : Subscription)
    (hlat : latestSubscription subs userId = some s)
    (hp : plans.find? (fun pl => pl.id == s.planId) = none) :
    getSubscriptionByUserId subs plans userId = none ∧
    requireActiveSubscription subs plans userId =
      requireActiveSubscription [] plans userId ∧
    requireActiveSubscription subs plans userId =
      AuthResult.proceed "active" (plans.find? (fun p => p.slug == "gratis")) true ∧
    getApiSubscription subs plans userId = getApiSubscription [] plans userId := by
  have h0 : getSubscriptionByUserId subs plans userId = none := by
    simp [getSubscriptionByUserId, hlat, hp]
  have hemp : getSubscriptionByUserId [] plans userId = none := by
    simp [getSubscriptionByUserId, latestSubscription, userSubscriptions]
  refine ⟨h0, ?_, ?_, ?_⟩ <;>
    simp [requireActiveSubscription, getApiSubscription, h0, hemp]

/-- Orphaned subscription row: its plan id matches no stored plan, and its
status is not active. -/
def subOrphan : Subscription :=
  { id := "s3", userId := "u2", planId := "deleted-plan", status := "past_due",
    createdAt := 10 }

/-- Witness for C10: the orphaned past_due row is invisible — the middleware
proceeds on the synthesized active free plan. -/
theorem missing_plan_row_treated_as_no_subscription_witness :
    getSubscriptionByUserId [subOrphan] [planGratis] "u2" = none ∧
    requireActiveSubscription [subOrphan] [planGratis] "u2" =
      AuthResult.proceed "active" (some planGratis) true :=
  have h := missing_plan_row_treated_as_no_subscription
    [subOrphan] [planGratis] "u2" subOrphan rfl rfl
  ⟨h.1, h.2.2.1⟩

/-- Row of the `orders` table restricted to the columns the usage accountant
reads: status and creation timestamp (epoch milliseconds, server-local clock). -/
structure Order where
  id : String
  status : String
  createdAt : Int
deriving DecidableEq, Repr

/-- Filter applied by `checkOrderLimit` and `getPlanUsage`:
`orders.filter(order => new Date(order.createdAt) >= firstDayOfMonth)`, where
`firstDayOfMonth` is `new Date(now.getFullYear(), now.getMonth(), 1)` — the
first calendar day of the current month at 00:00:00 server-local time, passed
here as an explicit cutoff instant. -/
def ordersThisMonth (orders : List Order) (firstDayOfMonth : Int) : List Order :=
  orders.filter (fun o => decide (firstDayOfMonth ≤ o.createdAt))

/-- Monthly order count reported by the usage accountant. -/
def monthlyOrderCount (orders : List Order) (firstDayOfMonth : Int) : Nat :=
  (ordersThisMonth orders firstDayOfMonth).length

/-- Status change performed when an order is cancelled; the creation timestamp
is untouched. -/
def cancelOrder (o : Order) : Order := { o with status := "cancelled" }

/-- Embedding of the `checkOrderLimit` middleware (subscriptionMiddleware.ts
lines 83-122), sharing the monthly filter above. -/
def checkOrderLimit (store : Option String) (plan : Option Plan)
    (orders : List Order) (firstDayOfMonth : Int) : GateResult :=
  match store with
  | none => .storeNotFound
  | some _ =>
      match plan with
      | none => .allowed
      | some p =>
          match p.maxOrders with
          | none => .allowed
          | some limit =>
              if (monthlyOrderCount orders firstDayOfMonth : Int) ≥ limit then
                .denied
                  { message := "Você atingiu o limite de " ++ toString limit ++
                      " pedidos/mês do plano " ++ p.name ++
                      ". Faça upgrade para processar mais pedidos."
                    limit := limit
                    current := monthlyOrderCount orders firstDayOfMonth
                    upgradeRequired := true
                    redirectTo := "/dashboard/subscription" }
              else .allowed

/-- C6: the monthly count contains exactly the orders created on or after the
first-of-month cutoff, irrespective of status — any status rewrite that keeps
creation timestamps (cancellation in particular) leaves the count unchanged. -/
theorem monthly_order_count_rule
    (orders : List Order) (firstDayOfMonth : Int) :
    (∀ o, o ∈ ordersThisMonth orders firstDayOfMonth ↔
        o ∈ orders ∧ firstDayOfMonth ≤ o.createdAt) ∧
    (∀ f : Order → Order, (∀ o, (f o).createdAt = o.createdAt) →
        monthlyOrderCount (orders.map f) firstDayOfMonth =
          monthlyOrderCount orders firstDayOfMonth) ∧
    monthlyOrderCount (orders.map cancelOrder) firstDayOfMonth =
      monthlyOrderCount orders firstDayOfMonth := by
  have hmap : ∀ f : Order → Order, (∀ o, (f o).createdAt = o.createdAt) →
      monthlyOrderCount (orders.map f) firstDayOfMonth =
        monthlyOrderCount orders firstDayOfMonth := by
    intro f hf
    simp only [monthlyOrderCount, ordersThisMonth, List.filter_map,
      List.length_map]
    congr 1
    apply List.filter_congr
    intro o _
    simp [Function.comp, hf]
  refine ⟨?_, hmap, hmap cancelOrder (fun _ => rfl)⟩
  intro o
  simp [ordersThisMonth]

/-- Order created exactly at the first-of-month midnight cutoff. -/
def orderFirstDay : Order := { id := "o1", status := "pending", createdAt := 1000 }

/-- Order created on the last day of the prior month. -/
def orderPrior : Order := { id := "o2", status := "pending", createdAt := 999 }

/-- Cancelled order created during the current month. -/
def orderCancelled : Order :=
  { id := "o3", status := "cancelled", createdAt := 1500 }

/-- Witness for C6 with cutoff 1000: the midnight order counts, the
prior-month order does not, the cancelled order counts, and cancelling the
whole list changes nothing. -/
theorem monthly_order_count_rule_witness :
    (orderFirstDay ∈ ordersThisMonth [orderFirstDay, orderPrior, orderCancelled] 1000 ↔
      orderFirstDay ∈ [orderFirstDay, orderPrior, orderCancelled] ∧
        (1000 : Int) ≤ orderFirstDay.createdAt) ∧
    monthlyOrderCount ([orderFirstDay, orderPrior, orderCancelled].map cancelOrder) 1000 =
      monthlyOrderCount [orderFirstDay, orderPrior, orderCancelled] 1000 ∧
    monthlyOrderCount [orderFirstDay, orderPrior, orderCancelled] 1000 = 2 :=
  ⟨(monthly_order_count_rule [orderFirstDay, orderPrior, orderCancelled] 1000).1
      orderFirstDay,
   (monthly_order_count_rule [orderFirstDay, orderPrior, orderCancelled] 1000).2.2,
   by decide⟩

/-- Usage percentage as computed by `getPlanUsage`: the ternary
`plan?.maxProducts ? (current / plan.maxProducts) * 100 : 0`, whose condition
is JavaScript truthiness — false for an absent plan, a NULL limit, and a zero
limit. -/
def usagePercentage (limit : Option Int) (current : Nat) : Rat :=
  match limit with
  | none => 0
  | some l => if l ≠ 0 then (current : Rat) / (l : Rat) * 100 else 0

/-- One `{current, limit, percentage}` block of the usage snapshot. -/
structure UsageCounter where
  current : Nat
  limit : Option Int
  percentage : Rat
deriving Repr

/-- Usage snapshot returned by `getPlanUsage` (subscriptionMiddleware.ts lines
125-167), computed fresh from the live counts: `plan` is
`subscription?.plan || getPlanBySlug("gratis")`, `productCount` the length of
the store's product list, `monthOrders` the length of `ordersThisMonth`. -/
structure UsageSnapshot where
  planName : Option String
  planSlug : Option String
  products : UsageCounter
  orders : UsageCounter
deriving Repr

/-- Embedding of the snapshot construction of `getPlanUsage`. -/
def getPlanUsage (plan : Option Plan) (productCount : Nat)
    (monthOrders : Nat) : UsageSnapshot :=
  { planName := plan.map (fun p => p.name)
    planSlug := plan.map (fun p => p.slug)
    products :=
      { current := productCount
        limit := plan.bind (fun p => p.maxProducts)
        percentage := usagePercentage (plan.bind (fun p => p.maxProducts)) productCount }
    orders :=
      { current := monthOrders
        limit := plan.bind (fun p => p.maxOrders)
        percentage := usagePercentage (plan.bind (fun p => p.maxOrders)) monthOrders } }

/-- C7: every reported percentage is current divided by the limit times 100
when the limit is non-null (with the rational convention value 0 at limit 0,
which is what the truthiness test produces), and 0 when the limit is null; an
unlimited plan reports 0 percent at every product count. -/
theorem usage_percentage_formula :
    (∀ (l : Int) (current : Nat),
        usagePercentage (some l) current = (current : Rat) / (l : Rat) * 100) ∧
    (∀ current : Nat, usagePercentage none current = 0) ∧
    (∀ (p : Plan) (productCount monthOrders : Nat), p.maxProducts = none →
        (getPlanUsage (some p) productCount monthOrders).products.percentage = 0) := by
  refine ⟨?_, fun _ => rfl, ?_⟩
  · intro l current
    by_cases hl : l = 0
    · subst hl
      simp [usagePercentage]
    · simp [usagePercentage, hl]
  · intro p productCount monthOrders hp
    simp [getPlanUsage, hp, usagePercentage]

/-- Witness for C7 on the unlimited enterprise plan: 0 percent at counts 0 and
10000. -/
theorem usage_percentage_formula_witness :
    (getPlanUsage (some planEnterprise) 0 0).products.percentage = 0 ∧
    (getPlanUsage (some planEnterprise) 10000 0).products.percentage = 0 :=
  ⟨usage_percentage_formula.2.2 planEnterprise 0 0 rfl,
   usage_percentage_formula.2.2 planEnterprise 10000 0 rfl⟩

/-- Five-minute time-to-live of the in-process plans cache, in milliseconds. -/
def CACHE_TTL : Int := 5 * 60 * 1000

/-- Module-level mutable state of the `GET /api/plans` route:
`plansCache` and `plansCacheTime`. -/
structure PlansCacheState where
  plansCache : Option (List Plan)
  plansCacheTime : Int
deriving Repr

/-- Outcome of an awaited storage call that may reject (the catch branch of
the route). -/
inductive DbResult (α : Type) where
  | ok (val : α)
  | err
deriving Repr

/-- Hardcoded four-plan fallback table embedded in the `GET /api/plans`
handler. -/
def fallbackPlans : List Plan :=
  [planGratis, planBasico, planProfissional, planEnterprise]

/-- Embedding of `getAllPlans` (storage.ts lines 416-418): the active plans
ordered by price ascending. -/
def getAllPlans (rows : List Plan) : List Plan :=
  (rows.filter (fun p => p.isActive)).mergeSort (fun a b => decide (a.price ≤ b.price))

/-- Freshness test of the route,
`plansCache && (now - plansCacheTime) < CACHE_TTL`; a cached array, even an
empty one, is truthy. -/
def cacheFresh (st : PlansCacheState) (now : Int) : Bool :=
  st.plansCache.isSome && decide (now - st.plansCacheTime < CACHE_TTL)

/-- Embedding of the `GET /api/plans` handler: fresh cache short-circuits;
otherwise the store is queried and the cache refreshed; on a storage failure
the stale cache is served if present, else the hardcoded table.  The function
is total: no path throws. -/
def getApiPlans (st : PlansCacheState) (now : Int)
    (dbRows : DbResult (List Plan)) : List Plan × PlansCacheState :=
  if cacheFresh st now then
    (st.plansCache.getD [], st)
  else
    match dbRows with
    | .ok rows =>
        let ps := getAllPlans rows
        (ps, { plansCache := some ps, plansCacheTime := now })
    | .err =>
        match st.plansCache with
        | some cached => (cached, st)
        | none => (fallbackPlans, st)

/-- C8: a read hitting a backing-store failure serves the cached plan list
whenever any cache exists (fresh or stale); with no cache it answers the
hardcoded four-plan table — slugs gratis, basico, profissional, enterprise —
whose prices are in ascending order; every path returns, none throws. -/
theorem plans_route_fallback_chain
    (st : PlansCacheState) (now : Int) :
    (∀ cached, st.plansCache = some cached →
        (getApiPlans st now .err).1 = cached) ∧
    (st.plansCache = none → (getApiPlans st now .err).1 = fallbackPlans) ∧
    fallbackPlans.map (fun p => p.slug) =
      ["gratis", "basico", "profissional", "enterprise"] ∧
    List.Pairwise (fun a b => a.price ≤ b.price) fallbackPlans := by
  refine ⟨?_, ?_, rfl, ?_⟩
  · intro cached hc
    by_cases hf : cacheFresh st now
    · simp [getApiPlans, hf, hc]
    · simp [getApiPlans, hf, hc]
  · intro hc
    have hf : cacheFresh st now = false := by simp [cacheFresh, hc]
    simp [getApiPlans, hf, hc]
  · simp only [fallbackPlans, planGratis, planBasico, planProfissional,
      planEnterprise, List.pairwise_cons, List.mem_cons, List.mem_singleton]
    norm_num

/-- Witness for C8: with a cached list the failing read serves it; with no
cache at all the failing read serves the hardcoded table. -/
theorem plans_route_fallback_chain_witness :
    (getApiPlans { plansCache := some [planGratis], plansCacheTime := 0 } 0
        DbResult.err).1 = [planGratis] ∧
    (getApiPlans { plansCache := none, plansCacheTime := 0 } 0
        DbResult.err).1 = fallbackPlans :=
  ⟨(plans_route_fallback_chain
      { plansCache := some [planGratis], plansCacheTime := 0 } 0).1 [planGratis] rfl,
   (plans_route_fallback_chain
      { plansCache := none, plansCacheTime := 0 } 0).2.1 rfl⟩
